import Mathlib

set_option maxRecDepth 100000

/-!
Shallow embedding of `stressedout-go` (src/main.go): the entity model, the
seed generator `seedDatabase`, the schema setup `setupDatabase`, and the two
workload handlers `handleDBRead` / `handleDBWrite`, together with the
seeding/HTTP endpoints `handleFirstRun` / `handleSeedDB`.

Modelling conventions:
- UUIDs are `Nat` (Go zero-value `uuid.UUID` is `0`).
- Monetary values (`float64` prices and totals in Go, `NUMERIC(10,2)` in the
  schema) are `ℚ`; the faker `gofakeit.Price(1,1000)` produces a value with
  two decimal digits, modelled as integer cents divided by 100.
- Randomness is modelled by oracle streams: each faker / `rand.Intn` call
  site reads its own `Nat → _` stream at the loop index.  `rand.Intn n` is
  modelled as `seed % n` (a value uniform in `[0, n)`), and
  `gofakeit.Number(lo, hi)` as `lo + seed % (hi - lo + 1)` (uniform in
  `[lo, hi]`).
- The database is an oracle: query results and per-statement insert errors
  are inputs; each function also returns the trace of store calls and log
  lines it performs, in program order, so that control-flow claims
  (which inserts were attempted, in which order, what was logged) are
  provable.
-/

/-- Go struct `User` (src/main.go:20).  `id` is DB-assigned on insert
(`default:uuid_generate_v4()`); go-pg writes it back into the struct. -/
structure GUser where
  id : Nat
  name : String
  address : String
deriving Repr, DecidableEq

/-- Go struct `Product` (src/main.go:28). -/
structure GProduct where
  id : Nat
  name : String
  description : String
  price : ℚ
deriving Repr, DecidableEq

/-- Go struct `Order` (src/main.go:35); the `User`/`Product` relation
pointers are not set by this program and are omitted. -/
structure GOrder where
  userId : Nat
  productId : Nat
  quantity : Nat
  totalPrice : ℚ
  date : Nat
deriving Repr, DecidableEq

/-- Go struct `Review` (src/main.go:46). -/
structure GReview where
  productId : Nat
  userId : Nat
  rating : Nat
  content : String
deriving Repr, DecidableEq

/-- Zero value of `Product` in Go: zero UUID, empty strings, price 0. -/
def zeroProduct : GProduct := { id := 0, name := "", description := "", price := 0 }

/-- Zero value of `User` in Go: zero UUID, empty strings. -/
def zeroUser : GUser := { id := 0, name := "", address := "" }

/-- Model of `rand.Intn n`: a uniform value in `[0, n)` drawn from `seed`. -/
def intn (seed n : Nat) : Nat := seed % n

/-- Model of `gofakeit.Number lo hi`: a uniform integer in `[lo, hi]`. -/
def fakeNumber (lo hi seed : Nat) : Nat := lo + seed % (hi - lo + 1)

/-- Model of `gofakeit.Price 1 1000`: a price with two decimal digits in
`[1, 1000)`, i.e. an integer number of cents in `[100, 100000)`, divided
by 100. -/
def fakePriceCents (seed : Nat) : Nat := 100 + seed % 99900

/-- A quantity of cents as a rational price. -/
def centsToRat (c : Nat) : ℚ := (c : ℚ) / 100

/-- Randomness streams consumed by `seedDatabase`, one per faker /
`rand.Intn` call site, indexed by the loop counter.  `userId` / `productId`
model the `uuid_generate_v4()` defaults the database assigns during the
bulk insert (go-pg writes them back into the in-memory structs, which the
order/review loops then read). -/
structure SeedGen where
  userName : Nat → String
  userStreet : Nat → String
  userCity : Nat → String
  userCountry : Nat → String
  userId : Nat → Nat
  productName : Nat → String
  productDesc : Nat → String
  productPriceSeed : Nat → Nat
  productId : Nat → Nat
  orderUserSeed : Nat → Nat
  orderProductSeed : Nat → Nat
  orderQtySeed : Nat → Nat
  orderDate : Nat → Nat
  reviewUserSeed : Nat → Nat
  reviewProductSeed : Nat → Nat
  reviewRatingSeed : Nat → Nat
  reviewContent : Nat → String

/-- Per-phase bulk-insert outcomes for a seeding run: `some msg` means the
corresponding `db.Model(...).Insert()` returned an error. -/
structure SeedErrors where
  usersErr : Option String
  productsErr : Option String
  ordersErr : Option String
  reviewsErr : Option String

/-- Store calls and log lines `seedDatabase` emits, in program order. -/
inductive SeedEvent
  | insertUsers (rows : List GUser)
  | insertProducts (rows : List GProduct)
  | insertOrders (rows : List GOrder)
  | insertReviews (rows : List GReview)
  | logError (msg : String)
  | logInfo (msg : String)
deriving Repr, DecidableEq

/-- Whether a seed event is a bulk insert (as opposed to a log line). -/
def SeedEvent.isInsert : SeedEvent → Bool
  | .insertUsers _ => true
  | .insertProducts _ => true
  | .insertOrders _ => true
  | .insertReviews _ => true
  | _ => false

def msgErrInsertUsers : String := "error inserting users"
def msgErrInsertProducts : String := "error inserting products"
def msgErrInsertOrders : String := "error inserting orders"
def msgErrInsertReviews : String := "error inserting reviews"
def msgInsertedUsers : String := "Inserted 2000 users"
def msgInsertedProducts : String := "Inserted 100 products"
def msgInsertedOrders : String := "Inserted 30000 orders"
def msgInsertedReviews : String := "Inserted 10000 reviews"

/-- The `users` slice built by the first seeding loop (src/main.go:377-383),
with the DB-assigned ids of the bulk insert already written back. -/
def seedUsers (g : SeedGen) : List GUser :=
  (List.range 2000).map fun i =>
    { id := g.userId i
      name := g.userName i
      address := g.userStreet i ++ ", " ++ g.userCity i ++ ", " ++ g.userCountry i }

/-- The `products` slice built by the second seeding loop
(src/main.go:391-398), ids written back by the bulk insert. -/
def seedProducts (g : SeedGen) : List GProduct :=
  (List.range 100).map fun i =>
    { id := g.productId i
      name := g.productName i
      description := g.productDesc i
      price := centsToRat (fakePriceCents (g.productPriceSeed i)) }

/-- The `orders` slice built by the third seeding loop (src/main.go:406-418):
each order samples `users[rand.Intn(len(users))]` and
`products[rand.Intn(len(products))]` from the in-memory slices, draws
`quantity` in `[1,10]`, and sets `TotalPrice = quantity * product.Price`. -/
def seedOrders (g : SeedGen) (users : List GUser) (products : List GProduct) :
    List GOrder :=
  (List.range 30000).map fun i =>
    let user := users.getD (intn (g.orderUserSeed i) users.length) zeroUser
    let product := products.getD (intn (g.orderProductSeed i) products.length) zeroProduct
    let quantity := fakeNumber 1 10 (g.orderQtySeed i)
    { userId := user.id
      productId := product.id
      quantity := quantity
      totalPrice := (quantity : ℚ) * product.price
      date := g.orderDate i }

/-- The `reviews` slice built by the fourth seeding loop
(src/main.go:426-436): samples user and product from the in-memory slices
and draws `rating` in `[1,100]`. -/
def seedReviews (g : SeedGen) (users : List GUser) (products : List GProduct) :
    List GReview :=
  (List.range 10000).map fun i =>
    let user := users.getD (intn (g.reviewUserSeed i) users.length) zeroUser
    let product := products.getD (intn (g.reviewProductSeed i) products.length) zeroProduct
    { productId := product.id
      userId := user.id
      rating := fakeNumber 1 100 (g.reviewRatingSeed i)
      content := g.reviewContent i }

/-- Result of a seeding run: the four generated slices, the trace of store
calls and log lines, and the function's return value. -/
structure SeedOutcome where
  users : List GUser
  products : List GProduct
  orders : List GOrder
  reviews : List GReview
  events : List SeedEvent
  ret : Option String

/-- Log events emitted after a bulk insert whose outcome is `e`. -/
def logIfErr (e : Option String) : List SeedEvent :=
  match e with
  | some m => [SeedEvent.logError m]
  | none => []

/-- Embedding of `seedDatabase` (src/main.go:375-444): generates 2000 users,
100 products, 30000 orders, 10000 reviews; each phase does one bulk insert;
an insert error is only logged (`log.Printf`) and the function continues to
the next phase and finally returns `nil` (`none`). -/
def seedDatabase (g : SeedGen) (e : SeedErrors) : SeedOutcome :=
  let users := seedUsers g
  let products := seedProducts g
  let orders := seedOrders g users products
  let reviews := seedReviews g users products
  { users := users
    products := products
    orders := orders
    reviews := reviews
    events :=
      [SeedEvent.insertUsers users] ++ logIfErr e.usersErr
        ++ [SeedEvent.logInfo msgInsertedUsers]
        ++ [SeedEvent.insertProducts products] ++ logIfErr e.productsErr
        ++ [SeedEvent.logInfo msgInsertedProducts]
        ++ [SeedEvent.insertOrders orders] ++ logIfErr e.ordersErr
        ++ [SeedEvent.logInfo msgInsertedOrders]
        ++ [SeedEvent.insertReviews reviews] ++ logIfErr e.reviewsErr
        ++ [SeedEvent.logInfo msgInsertedReviews]
    ret := none }

/-- Errors a go-pg store call can return: `notFound` for zero rows where
one was expected (`pg.ErrNoRows`), `backend` for connection / timeout /
constraint failures. -/
inductive DBError
  | notFound
  | backend (msg : String)
deriving Repr, DecidableEq

/-- The row shape of the anonymous reviews struct in `handleDBRead`
(src/main.go:176-180). -/
structure ReviewRow where
  username : String
  rating : Nat
  content : String
deriving Repr, DecidableEq

/-- Database oracle for one `handleDBRead` invocation: the result of the
random-product sample and, for each product id, the results of the three
dependent queries. -/
structure ReadStore where
  randomProduct : Except DBError GProduct
  orderCount : Nat → Except DBError Nat
  uniqueUserCount : Nat → Except DBError Nat
  productReviews : Nat → Except DBError (List ReviewRow)

/-- Store calls and log lines `handleDBRead` emits, in program order.
Each dependent-query event records the product id it was issued with. -/
inductive ReadEvent
  | sampleProduct
  | queryOrderCount (productId : Nat)
  | queryUniqueUserCount (productId : Nat)
  | queryReviews (productId : Nat)
  | logError (msg : String)
deriving Repr, DecidableEq

/-- Whether a read event is one of the three dependent queries. -/
def ReadEvent.isDependentQuery : ReadEvent → Bool
  | .queryOrderCount _ => true
  | .queryUniqueUserCount _ => true
  | .queryReviews _ => true
  | _ => false

/-- The product id a dependent-query event was issued with (`none` for the
sample and for log lines). -/
def ReadEvent.queryProductId : ReadEvent → Option Nat
  | .queryOrderCount pid => some pid
  | .queryUniqueUserCount pid => some pid
  | .queryReviews pid => some pid
  | _ => none

/-- Data handed to `read.html` (src/main.go:194-208). -/
structure ReadTemplateData where
  productName : String
  orderCount : Nat
  uniqueUserCount : Nat
  reviews : List ReviewRow
deriving Repr, DecidableEq

/-- Response of `handleDBRead`: either `WriteHeader(500)` with nothing
rendered, or the rendered `read.html` template. -/
inductive ReadResponse
  | serverError
  | rendered (data : ReadTemplateData)
deriving Repr, DecidableEq

def msgErrSelectProduct : String := "error selecting random product"
def msgErrCountOrders : String := "error counting orders"
def msgErrCountUniqueUsers : String := "error counting unique users"
def msgErrFetchReviews : String := "error fetching reviews"

/-- Embedding of `handleDBRead` (src/main.go:129-211): sample a random
product; on error log and return 500.  Then run the three dependent queries
with the sampled product's id, each with the same log-and-500 handling;
finally render `read.html`. -/
def handleDBRead (st : ReadStore) : ReadResponse × List ReadEvent :=
  match st.randomProduct with
  | .error _ =>
      (.serverError, [.sampleProduct, .logError msgErrSelectProduct])
  | .ok product =>
    match st.orderCount product.id with
    | .error _ =>
        (.serverError,
          [.sampleProduct, .queryOrderCount product.id, .logError msgErrCountOrders])
    | .ok oc =>
      match st.uniqueUserCount product.id with
      | .error _ =>
          (.serverError,
            [.sampleProduct, .queryOrderCount product.id,
              .queryUniqueUserCount product.id, .logError msgErrCountUniqueUsers])
      | .ok uc =>
        match st.productReviews product.id with
        | .error _ =>
            (.serverError,
              [.sampleProduct, .queryOrderCount product.id,
                .queryUniqueUserCount product.id, .queryReviews product.id,
                .logError msgErrFetchReviews])
        | .ok revs =>
            (.rendered
              { productName := product.name
                orderCount := oc
                uniqueUserCount := uc
                reviews := revs },
              [.sampleProduct, .queryOrderCount product.id,
                .queryUniqueUserCount product.id, .queryReviews product.id])

/-- Database oracle for one `handleDBWrite` invocation: results of the two
samples and the outcome (`some msg` = error) of each single-row insert. -/
structure WriteStore where
  randomProduct : Except DBError GProduct
  randomUser : Except DBError GUser
  insertOrder : GOrder → Option String
  insertReview : GReview → Option String

/-- Randomness consumed by `handleDBWrite`: quantity seed
(`gofakeit.Number(1,5)`), rating seed (`gofakeit.Number(1,100)`), the random
paragraph, and the current time. -/
structure WriteGen where
  quantitySeed : Nat
  ratingSeed : Nat
  content : String
  now : Nat

/-- Store calls and log lines `handleDBWrite` emits, in program order. -/
inductive WriteEvent
  | sampleProduct
  | sampleUser
  | insertOrder (o : GOrder)
  | insertReview (rv : GReview)
  | logError (msg : String)
deriving Repr, DecidableEq

/-- Whether a write event is one of the two inserts. -/
def WriteEvent.isInsert : WriteEvent → Bool
  | .insertOrder _ => true
  | .insertReview _ => true
  | _ => false

/-- Data handed to `write.html` (src/main.go:266-280). -/
structure WriteTemplateData where
  productName : String
  userName : String
  orderQuantity : Nat
  orderTotalPrice : ℚ
  reviewRating : Nat
  reviewContent : String
deriving Repr, DecidableEq

/-- Response of `handleDBWrite`.  The Go handler has no 500 path; the
`serverError` constructor exists so the absence of one is expressible. -/
inductive WriteResponse
  | serverError
  | rendered (data : WriteTemplateData)
deriving Repr, DecidableEq

def msgErrSelectUser : String := "error selecting random user"
def msgErrInsertOrder : String := "error inserting new order"
def msgErrInsertReview : String := "error inserting new review"

/-- Result of one `handleDBWrite` invocation: the synthesized order and
review, the response, and the trace of store calls and log lines. -/
structure WriteOutcome where
  order : GOrder
  review : GReview
  response : WriteResponse
  events : List WriteEvent

/-- Embedding of `handleDBWrite` (src/main.go:214-283): sample a random
product and a random user — an error is only logged and the zero-value
struct is kept; build the order (`quantity` in `[1,5]`,
`TotalPrice = quantity * product.Price`) and insert it, logging any error;
build the review (`rating` in `[1,100]`) and insert it, logging any error;
always render `write.html` from the synthesized values. -/
def handleDBWrite (st : WriteStore) (g : WriteGen) : WriteOutcome :=
  let pEvents : GProduct × List WriteEvent :=
    match st.randomProduct with
    | .ok p => (p, [.sampleProduct])
    | .error _ => (zeroProduct, [.sampleProduct, .logError msgErrSelectProduct])
  let product := pEvents.1
  let uEvents : GUser × List WriteEvent :=
    match st.randomUser with
    | .ok u => (u, [.sampleUser])
    | .error _ => (zeroUser, [.sampleUser, .logError msgErrSelectUser])
  let user := uEvents.1
  let quantity := fakeNumber 1 5 g.quantitySeed
  let order : GOrder :=
    { userId := user.id
      productId := product.id
      quantity := quantity
      totalPrice := (quantity : ℚ) * product.price
      date := g.now }
  let orderEvents : List WriteEvent :=
    [.insertOrder order] ++
      (match st.insertOrder order with
        | some _ => [.logError msgErrInsertOrder]
        | none => [])
  let review : GReview :=
    { productId := product.id
      userId := user.id
      rating := fakeNumber 1 100 g.ratingSeed
      content := g.content }
  let reviewEvents : List WriteEvent :=
    [.insertReview review] ++
      (match st.insertReview review with
        | some _ => [.logError msgErrInsertReview]
        | none => [])
  { order := order
    review := review
    response := .rendered
      { productName := product.name
        userName := user.name
        orderQuantity := order.quantity
        orderTotalPrice := order.totalPrice
        reviewRating := review.rating
        reviewContent := review.content }
    events := pEvents.2 ++ uEvents.2 ++ orderEvents ++ reviewEvents }

/-- Per-statement outcomes for `setupDatabase`: `some msg` means the
corresponding `db.ExecContext` returned an error. -/
structure SetupErrors where
  extErr : Option String
  usersErr : Option String
  productsErr : Option String
  ordersErr : Option String
  reviewsErr : Option String

/-- Statements and log lines `setupDatabase` emits, in program order. -/
inductive SetupEvent
  | exec (sql : String)
  | logError (msg : String)
  | logInfo (msg : String)
deriving Repr, DecidableEq

def sqlCreateExtension : String := "CREATE EXTENSION IF NOT EXISTS \"uuid-ossp\";"

def sqlCreateUsers : String :=
  "CREATE TABLE IF NOT EXISTS users (id UUID PRIMARY KEY DEFAULT uuid_generate_v4(), name TEXT NOT NULL, address TEXT NOT NULL);"

def sqlCreateProducts : String :=
  "CREATE TABLE IF NOT EXISTS products (id UUID PRIMARY KEY DEFAULT uuid_generate_v4(), name TEXT NOT NULL, description TEXT NOT NULL, price NUMERIC(10, 2) NOT NULL);"

def sqlCreateOrders : String :=
  "CREATE TABLE IF NOT EXISTS orders (id UUID PRIMARY KEY DEFAULT uuid_generate_v4(), user_id UUID NOT NULL REFERENCES users(id), product_id UUID NOT NULL REFERENCES products(id), quantity INTEGER NOT NULL, total_price NUMERIC(10, 2) NOT NULL, date TIMESTAMP WITH TIME ZONE NOT NULL);"

def sqlCreateReviews : String :=
  "CREATE TABLE IF NOT EXISTS reviews (id UUID PRIMARY KEY DEFAULT uuid_generate_v4(), product_id UUID NOT NULL REFERENCES products(id), user_id UUID NOT NULL REFERENCES users(id), rating INTEGER NOT NULL CHECK (rating >= 0 AND rating <= 100), content TEXT NOT NULL);"

def msgErrCreateExtension : String := "error creating uuid-ossp extension"
def msgErrCreateUsers : String := "error creating users table"
def msgErrCreateProducts : String := "error creating products table"
def msgErrCreateOrders : String := "error creating orders table"
def msgErrCreateReviews : String := "error creating reviews table"
def msgSchemaCreated : String := "Database schema created successfully"

/-- Log events emitted after a DDL statement whose outcome is `e`. -/
def setupLogIfErr (e : Option String) : List SetupEvent :=
  match e with
  | some m => [SetupEvent.logError m]
  | none => []

/-- Embedding of `setupDatabase` (src/main.go:305-373): issues the five DDL
statements in order; each statement's error is only logged and execution
continues; the function always returns `nil` (`none`). -/
def setupDatabase (e : SetupErrors) : List SetupEvent × Option String :=
  ([SetupEvent.exec sqlCreateExtension] ++ setupLogIfErr e.extErr
      ++ [SetupEvent.exec sqlCreateUsers] ++ setupLogIfErr e.usersErr
      ++ [SetupEvent.exec sqlCreateProducts] ++ setupLogIfErr e.productsErr
      ++ [SetupEvent.exec sqlCreateOrders] ++ setupLogIfErr e.ordersErr
      ++ [SetupEvent.exec sqlCreateReviews] ++ setupLogIfErr e.reviewsErr
      ++ [SetupEvent.logInfo msgSchemaCreated],
    none)

/-- The CHECK constraint on `reviews.rating` in `sqlCreateReviews`
(src/main.go:363): `rating >= 0 AND rating <= 100`. -/
def reviewsRatingCheck (rating : Int) : Bool :=
  decide (rating ≥ 0) && decide (rating ≤ 100)

/-- Response actions an endpoint handler writes, in order. -/
inductive HttpAction
  | httpError (msg : String) (status : Nat)
  | writeHeader (status : Nat)
  | writeBody (body : String)
deriving Repr, DecidableEq

def firstRunBody : String := "Database created successfully"
def seedBody : String := "Database seeded successfully"

/-- Embedding of `handleFirstRun` (src/main.go:285-293): calls
`setupDatabase`; on a non-nil error writes `http.Error(..., 500)`; then
unconditionally writes header 200 and the success body. -/
def handleFirstRun (e : SetupErrors) : List HttpAction :=
  (match (setupDatabase e).2 with
    | some m => [HttpAction.httpError m 500]
    | none => [])
    ++ [HttpAction.writeHeader 200, HttpAction.writeBody firstRunBody]

/-- Embedding of `handleSeedDB` (src/main.go:295-303): calls `seedDatabase`;
on a non-nil error writes `http.Error(..., 500)`; then unconditionally
writes header 201 and the success body. -/
def handleSeedDB (g : SeedGen) (e : SeedErrors) : List HttpAction :=
  (match (seedDatabase g e).ret with
    | some m => [HttpAction.httpError m 500]
    | none => [])
    ++ [HttpAction.writeHeader 201, HttpAction.writeBody seedBody]

/-- Rounding to two decimal places (what a `NUMERIC(10,2)` column stores):
round half up at the cents digit. -/
def round2 (q : ℚ) : ℚ := ((⌊q * 100 + 1 / 2⌋ : ℤ) : ℚ) / 100

/-- A rational representable with two decimal digits (an integer number of
cents). -/
def TwoDecimal (q : ℚ) : Prop := ∃ c : ℤ, q = (c : ℚ) / 100

lemma getD_mem_of_lt {α : Type} (l : List α) (i : Nat) (d : α) (h : i < l.length) :
    l.getD i d ∈ l := by
  rw [List.getD_eq_getElem?_getD, List.getElem?_eq_getElem h]
  exact List.getElem_mem h

lemma rangeMap_getD {α : Type} (f : Nat → α) (n i : Nat) (d : α) (h : i < n) :
    ((List.range n).map f).getD i d = f i := by
  rw [List.getD_eq_getElem?_getD, List.getElem?_map, List.getElem?_range h]
  rfl

lemma seedUsers_length (g : SeedGen) : (seedUsers g).length = 2000 := by
  simp [seedUsers]

lemma seedProducts_length (g : SeedGen) : (seedProducts g).length = 100 := by
  simp [seedProducts]

/-- C4: A seeding run with the default volumes generates exactly 2000 User
rows, 100 Product rows, 30000 Order rows and 10000 Review rows, and submits
them as four bulk inserts in exactly that order (users, then products, then
orders, then reviews). -/
theorem seedDatabase_counts_and_insert_order (g : SeedGen) (e : SeedErrors) :
    (seedDatabase g e).users.length = 2000 ∧
    (seedDatabase g e).products.length = 100 ∧
    (seedDatabase g e).orders.length = 30000 ∧
    (seedDatabase g e).reviews.length = 10000 ∧
    (seedDatabase g e).events.filter SeedEvent.isInsert =
      [SeedEvent.insertUsers (seedDatabase g e).users,
        SeedEvent.insertProducts (seedDatabase g e).products,
        SeedEvent.insertOrders (seedDatabase g e).orders,
        SeedEvent.insertReviews (seedDatabase g e).reviews] := by
  refine ⟨by simp [seedDatabase, seedUsers], by simp [seedDatabase, seedProducts],
    by simp [seedDatabase, seedOrders], by simp [seedDatabase, seedReviews], ?_⟩
  rcases e with ⟨u, p, o, r⟩
  cases u <;> cases p <;> cases o <;> cases r <;>
    simp [seedDatabase, logIfErr, SeedEvent.isInsert]

/-- C10: `setupDatabase` and `seedDatabase` return `nil` for every outcome
of their statements, even when every DDL statement or bulk insert errors, so
`/firstrun` always answers 200 with the success body and `/seed` always
answers 201 with the success body; a caller can never observe a failure
status from these endpoints. -/
theorem setup_seed_endpoints_always_succeed (s : SetupErrors) (g : SeedGen)
    (e : SeedErrors) :
    (setupDatabase s).2 = none ∧
    (seedDatabase g e).ret = none ∧
    handleFirstRun s =
      [HttpAction.writeHeader 200, HttpAction.writeBody firstRunBody] ∧
    handleSeedDB g e =
      [HttpAction.writeHeader 201, HttpAction.writeBody seedBody] := by
  refine ⟨rfl, rfl, ?_, ?_⟩ <;>
    simp [handleFirstRun, handleSeedDB, setupDatabase, seedDatabase]

lemma seedOrders_refs (g : SeedGen) (users : List GUser) (products : List GProduct)
    (hu : 0 < users.length) (hp : 0 < products.length) :
    ∀ o ∈ seedOrders g users products,
      (∃ u ∈ users, o.userId = u.id) ∧ (∃ p ∈ products, o.productId = p.id) := by
  intro o ho
  rw [seedOrders, List.mem_map] at ho
  obtain ⟨i, -, rfl⟩ := ho
  constructor
  · exact ⟨users.getD (intn (g.orderUserSeed i) users.length) zeroUser,
      getD_mem_of_lt _ _ _ (Nat.mod_lt _ hu), rfl⟩
  · exact ⟨products.getD (intn (g.orderProductSeed i) products.length) zeroProduct,
      getD_mem_of_lt _ _ _ (Nat.mod_lt _ hp), rfl⟩

lemma seedReviews_refs (g : SeedGen) (users : List GUser) (products : List GProduct)
    (hu : 0 < users.length) (hp : 0 < products.length) :
    ∀ rv ∈ seedReviews g users products,
      (∃ u ∈ users, rv.userId = u.id) ∧ (∃ p ∈ products, rv.productId = p.id) := by
  intro rv hrv
  rw [seedReviews, List.mem_map] at hrv
  obtain ⟨i, -, rfl⟩ := hrv
  constructor
  · exact ⟨users.getD (intn (g.reviewUserSeed i) users.length) zeroUser,
      getD_mem_of_lt _ _ _ (Nat.mod_lt _ hu), rfl⟩
  · exact ⟨products.getD (intn (g.reviewProductSeed i) products.length) zeroProduct,
      getD_mem_of_lt _ _ _ (Nat.mod_lt _ hp), rfl⟩

lemma seedDatabase_users_eq (g : SeedGen) (e : SeedErrors) :
    (seedDatabase g e).users = seedUsers g := by
  simp [seedDatabase]

lemma seedDatabase_products_eq (g : SeedGen) (e : SeedErrors) :
    (seedDatabase g e).products = seedProducts g := by
  simp [seedDatabase]

lemma seedDatabase_orders_eq (g : SeedGen) (e : SeedErrors) :
    (seedDatabase g e).orders = seedOrders g (seedUsers g) (seedProducts g) := by
  simp [seedDatabase]

lemma seedDatabase_reviews_eq (g : SeedGen) (e : SeedErrors) :
    (seedDatabase g e).reviews = seedReviews g (seedUsers g) (seedProducts g) := by
  simp [seedDatabase]

/-- C2: every Order and Review generated by a seeding run references a User
and a Product that are elements of the in-memory slices generated earlier in
the same run (sampled by uniform index into those slices), so every
reference resolves against that run's Users/Products without re-querying the
store. -/
theorem seed_references_resolve (g : SeedGen) (e : SeedErrors) :
    (∀ o ∈ (seedDatabase g e).orders,
        (∃ u ∈ (seedDatabase g e).users, o.userId = u.id) ∧
        (∃ p ∈ (seedDatabase g e).products, o.productId = p.id)) ∧
    (∀ rv ∈ (seedDatabase g e).reviews,
        (∃ u ∈ (seedDatabase g e).users, rv.userId = u.id) ∧
        (∃ p ∈ (seedDatabase g e).products, rv.productId = p.id)) := by
  rw [seedDatabase_orders_eq, seedDatabase_reviews_eq, seedDatabase_users_eq,
    seedDatabase_products_eq]
  constructor
  · exact seedOrders_refs g (seedUsers g) (seedProducts g)
      (by rw [seedUsers_length]; norm_num) (by rw [seedProducts_length]; norm_num)
  · exact seedReviews_refs g (seedUsers g) (seedProducts g)
      (by rw [seedUsers_length]; norm_num) (by rw [seedProducts_length]; norm_num)

/-- A concrete seed-randomness oracle: every string stream is constant,
every numeric seed stream is zero, and the DB assigns ids equal to the row
index. -/
def g0 : SeedGen :=
  { userName := fun _ => "u"
    userStreet := fun _ => "s"
    userCity := fun _ => "c"
    userCountry := fun _ => "n"
    userId := fun i => i
    productName := fun _ => "p"
    productDesc := fun _ => "d"
    productPriceSeed := fun _ => 0
    productId := fun i => i
    orderUserSeed := fun _ => 0
    orderProductSeed := fun _ => 0
    orderQtySeed := fun _ => 0
    orderDate := fun _ => 0
    reviewUserSeed := fun _ => 0
    reviewProductSeed := fun _ => 0
    reviewRatingSeed := fun _ => 0
    reviewContent := fun _ => "r" }

/-- A seeding run in which no bulk insert errors. -/
def e0 : SeedErrors :=
  { usersErr := none, productsErr := none, ordersErr := none, reviewsErr := none }

/-- The first order generated by `seedDatabase g0 e0`: all seeds 0 sample
user 0 and product 0, quantity `1 + 0 % 10 = 1`, product price
`(100 + 0 % 99900) / 100 = 1`, total `1 * 1 = 1`. -/
def ord0 : GOrder :=
  { userId := 0, productId := 0, quantity := 1, totalPrice := 1, date := 0 }

lemma ord0_mem : ord0 ∈ (seedDatabase g0 e0).orders := by
  rw [seedDatabase_orders_eq, seedOrders]
  refine List.mem_map.mpr ⟨0, List.mem_range.mpr (by norm_num), ?_⟩
  simp only [seedUsers_length, seedProducts_length]
  rw [show intn (g0.orderUserSeed 0) 2000 = 0 from rfl,
    show intn (g0.orderProductSeed 0) 100 = 0 from rfl,
    seedUsers, seedProducts,
    rangeMap_getD _ _ _ _ (by norm_num), rangeMap_getD _ _ _ _ (by norm_num)]
  norm_num [g0, ord0, fakeNumber, centsToRat, fakePriceCents]

/-- Witness for C2: the first generated order of a concrete seeding run is
in the orders slice, and its user/product references resolve in that run's
users/products slices. -/
theorem seed_references_resolve_witness :
    ord0 ∈ (seedDatabase g0 e0).orders ∧
    ((∃ u ∈ (seedDatabase g0 e0).users, ord0.userId = u.id) ∧
      (∃ p ∈ (seedDatabase g0 e0).products, ord0.productId = p.id)) :=
  ⟨ord0_mem, (seed_references_resolve g0 e0).1 ord0 ord0_mem⟩

lemma floor_half_rat : ⌊(1 : ℚ) / 2⌋ = 0 := by
  rw [Int.floor_eq_zero_iff]
  norm_num [Set.mem_Ico]

lemma round2_cents (c : ℤ) : round2 ((c : ℚ) / 100) = (c : ℚ) / 100 := by
  unfold round2
  rw [div_mul_cancel₀ (c : ℚ) (by norm_num : (100 : ℚ) ≠ 0), Int.floor_int_add,
    floor_half_rat]
  norm_num

lemma round2_of_twoDecimal {q : ℚ} (h : TwoDecimal q) : round2 q = q := by
  obtain ⟨c, rfl⟩ := h
  exact round2_cents c

lemma twoDecimal_nat_mul (k : Nat) {q : ℚ} (h : TwoDecimal q) :
    TwoDecimal ((k : ℚ) * q) := by
  obtain ⟨c, rfl⟩ := h
  exact ⟨k * c, by push_cast; ring⟩

lemma seedProducts_price_twoDecimal (g : SeedGen) :
    ∀ p ∈ seedProducts g, TwoDecimal p.price := by
  intro p hp
  rw [seedProducts, List.mem_map] at hp
  obtain ⟨i, -, rfl⟩ := hp
  refine ⟨(fakePriceCents (g.productPriceSeed i) : ℤ), ?_⟩
  show centsToRat (fakePriceCents (g.productPriceSeed i)) = _
  rw [centsToRat]
  push_cast
  ring

/-- C3: every Order created by the seed generator and every Order created by
the write-workload handler stores a total price equal to the quantity times
the sampled product's price, rounded to two decimal places (for a
two-decimal product price, as `NUMERIC(10,2)` columns and the price faker
produce, the product is already exact at two decimals). -/
theorem totalPrice_is_quantity_times_price (g : SeedGen) (e : SeedErrors)
    (st : WriteStore) (w : WriteGen) :
    (∀ o ∈ (seedDatabase g e).orders,
        ∃ p ∈ (seedDatabase g e).products,
          o.productId = p.id ∧
          o.totalPrice = round2 ((o.quantity : ℚ) * p.price)) ∧
    (∀ p, st.randomProduct = .ok p → TwoDecimal p.price →
        (handleDBWrite st w).order.totalPrice =
          round2 (((handleDBWrite st w).order.quantity : ℚ) * p.price)) := by
  constructor
  · rw [seedDatabase_orders_eq, seedDatabase_products_eq]
    intro o ho
    rw [seedOrders, List.mem_map] at ho
    obtain ⟨i, -, rfl⟩ := ho
    have hlen : 0 < (seedProducts g).length := by rw [seedProducts_length]; norm_num
    refine ⟨(seedProducts g).getD
      (intn (g.orderProductSeed i) (seedProducts g).length) zeroProduct,
      getD_mem_of_lt _ _ _ (Nat.mod_lt _ hlen), rfl, ?_⟩
    have h2 : TwoDecimal ((seedProducts g).getD
        (intn (g.orderProductSeed i) (seedProducts g).length) zeroProduct).price :=
      seedProducts_price_twoDecimal g _ (getD_mem_of_lt _ _ _ (Nat.mod_lt _ hlen))
    exact (round2_of_twoDecimal (twoDecimal_nat_mul _ h2)).symm
  · rcases st with ⟨rp, ru, io, ir⟩
    rintro p rfl h2
    rcases ru with er | u <;>
      simp only [handleDBWrite] <;>
      exact (round2_of_twoDecimal (twoDecimal_nat_mul _ h2)).symm

/-- A concrete product with a two-decimal price (`3.99`). -/
def prod1 : GProduct := { id := 7, name := "widget", description := "w", price := 399 / 100 }

/-- A concrete user. -/
def user1 : GUser := { id := 3, name := "alice", address := "a" }

/-- A write-handler oracle in which both samples succeed and both inserts
succeed. -/
def wst1 : WriteStore :=
  { randomProduct := .ok prod1
    randomUser := .ok user1
    insertOrder := fun _ => none
    insertReview := fun _ => none }

/-- Concrete write-handler randomness. -/
def w1 : WriteGen := { quantitySeed := 2, ratingSeed := 10, content := "ok", now := 5 }

/-- Witness for C3: evaluated on a concrete seeding run (first generated
order) and a concrete write invocation with product price 3.99. -/
theorem totalPrice_is_quantity_times_price_witness :
    (ord0 ∈ (seedDatabase g0 e0).orders ∧
      ∃ p ∈ (seedDatabase g0 e0).products,
        ord0.productId = p.id ∧
        ord0.totalPrice = round2 ((ord0.quantity : ℚ) * p.price)) ∧
    (wst1.randomProduct = .ok prod1 ∧ TwoDecimal prod1.price ∧
      (handleDBWrite wst1 w1).order.totalPrice =
        round2 (((handleDBWrite wst1 w1).order.quantity : ℚ) * prod1.price)) :=
  ⟨⟨ord0_mem, (totalPrice_is_quantity_times_price g0 e0 wst1 w1).1 ord0 ord0_mem⟩,
    rfl, ⟨399, by norm_num [prod1]⟩,
    (totalPrice_is_quantity_times_price g0 e0 wst1 w1).2 prod1 rfl
      ⟨399, by norm_num [prod1]⟩⟩

lemma handleDBRead_sample_error (oc uc : Nat → Except DBError Nat)
    (pr : Nat → Except DBError (List ReviewRow)) (er : DBError) :
    handleDBRead ⟨.error er, oc, uc, pr⟩ =
      (.serverError, [.sampleProduct, .logError msgErrSelectProduct]) := rfl

lemma handleDBRead_oc_error (p : GProduct) (oc uc : Nat → Except DBError Nat)
    (pr : Nat → Except DBError (List ReviewRow)) (er : DBError)
    (h : oc p.id = .error er) :
    handleDBRead ⟨.ok p, oc, uc, pr⟩ =
      (.serverError,
        [.sampleProduct, .queryOrderCount p.id, .logError msgErrCountOrders]) := by
  simp [handleDBRead, h]

lemma handleDBRead_uc_error (p : GProduct) (oc uc : Nat → Except DBError Nat)
    (pr : Nat → Except DBError (List ReviewRow)) (n : Nat) (er : DBError)
    (h1 : oc p.id = .ok n) (h2 : uc p.id = .error er) :
    handleDBRead ⟨.ok p, oc, uc, pr⟩ =
      (.serverError,
        [.sampleProduct, .queryOrderCount p.id, .queryUniqueUserCount p.id,
          .logError msgErrCountUniqueUsers]) := by
  simp [handleDBRead, h1, h2]

lemma handleDBRead_pr_error (p : GProduct) (oc uc : Nat → Except DBError Nat)
    (pr : Nat → Except DBError (List ReviewRow)) (n m : Nat) (er : DBError)
    (h1 : oc p.id = .ok n) (h2 : uc p.id = .ok m) (h3 : pr p.id = .error er) :
    handleDBRead ⟨.ok p, oc, uc, pr⟩ =
      (.serverError,
        [.sampleProduct, .queryOrderCount p.id, .queryUniqueUserCount p.id,
          .queryReviews p.id, .logError msgErrFetchReviews]) := by
  simp [handleDBRead, h1, h2, h3]

lemma handleDBRead_all_ok (p : GProduct) (oc uc : Nat → Except DBError Nat)
    (pr : Nat → Except DBError (List ReviewRow)) (n m : Nat) (rs : List ReviewRow)
    (h1 : oc p.id = .ok n) (h2 : uc p.id = .ok m) (h3 : pr p.id = .ok rs) :
    handleDBRead ⟨.ok p, oc, uc, pr⟩ =
      (.rendered
        { productName := p.name, orderCount := n, uniqueUserCount := m, reviews := rs },
        [.sampleProduct, .queryOrderCount p.id, .queryUniqueUserCount p.id,
          .queryReviews p.id]) := by
  simp [handleDBRead, h1, h2, h3]

/-- C5: in every read-workload invocation all dependent queries carry the
sampled product's id; when the product sample fails the handler answers 500
and issues no dependent query; and when any dependent query fails the
handler logs, answers 500, and renders nothing. -/
theorem read_handler_dependent_queries (st : ReadStore) :
    (∀ p, st.randomProduct = .ok p →
      ∀ ev ∈ (handleDBRead st).2, ev.isDependentQuery = true →
        ev.queryProductId = some p.id) ∧
    (∀ er, st.randomProduct = .error er →
      (handleDBRead st).1 = .serverError ∧
      ∀ ev ∈ (handleDBRead st).2, ev.isDependentQuery = false) ∧
    (∀ p er, st.randomProduct = .ok p →
      (st.orderCount p.id = .error er ∨ st.uniqueUserCount p.id = .error er ∨
        st.productReviews p.id = .error er) →
      (handleDBRead st).1 = .serverError ∧
        ∃ m, ReadEvent.logError m ∈ (handleDBRead st).2) := by
  rcases st with ⟨rp, oc, uc, pr⟩
  refine ⟨?_, ?_, ?_⟩
  · rintro p rfl ev hev hdep
    rcases h1 : oc p.id with er1 | n1
    · rw [handleDBRead_oc_error p oc uc pr er1 h1] at hev
      simp only [List.mem_cons, List.not_mem_nil, or_false] at hev
      rcases hev with rfl | rfl | rfl <;>
        simp_all [ReadEvent.isDependentQuery, ReadEvent.queryProductId]
    · rcases h2 : uc p.id with er2 | n2
      · rw [handleDBRead_uc_error p oc uc pr n1 er2 h1 h2] at hev
        simp only [List.mem_cons, List.not_mem_nil, or_false] at hev
        rcases hev with rfl | rfl | rfl | rfl <;>
          simp_all [ReadEvent.isDependentQuery, ReadEvent.queryProductId]
      · rcases h3 : pr p.id with er3 | rs
        · rw [handleDBRead_pr_error p oc uc pr n1 n2 er3 h1 h2 h3] at hev
          simp only [List.mem_cons, List.not_mem_nil, or_false] at hev
          rcases hev with rfl | rfl | rfl | rfl | rfl <;>
            simp_all [ReadEvent.isDependentQuery, ReadEvent.queryProductId]
        · rw [handleDBRead_all_ok p oc uc pr n1 n2 rs h1 h2 h3] at hev
          simp only [List.mem_cons, List.not_mem_nil, or_false] at hev
          rcases hev with rfl | rfl | rfl | rfl <;>
            simp_all [ReadEvent.isDependentQuery, ReadEvent.queryProductId]
  · rintro er rfl
    rw [handleDBRead_sample_error oc uc pr er]
    refine ⟨rfl, ?_⟩
    intro ev hev
    simp only [List.mem_cons, List.not_mem_nil, or_false] at hev
    rcases hev with rfl | rfl <;> rfl
  · rintro p er rfl hdisj
    rcases h1 : oc p.id with er1 | n1
    · rw [handleDBRead_oc_error p oc uc pr er1 h1]
      exact ⟨rfl, msgErrCountOrders, by simp⟩
    · rcases h2 : uc p.id with er2 | n2
      · rw [handleDBRead_uc_error p oc uc pr n1 er2 h1 h2]
        exact ⟨rfl, msgErrCountUniqueUsers, by simp⟩
      · rcases h3 : pr p.id with er3 | rs
        · rw [handleDBRead_pr_error p oc uc pr n1 n2 er3 h1 h2 h3]
          exact ⟨rfl, msgErrFetchReviews, by simp⟩
        · exfalso
          rcases hdisj with h | h | h <;> simp_all

/-- A read-handler oracle in which everything succeeds. -/
def rstOk : ReadStore :=
  { randomProduct := .ok prod1
    orderCount := fun _ => .ok 4
    uniqueUserCount := fun _ => .ok 2
    productReviews := fun _ => .ok [] }

/-- A read-handler oracle in which the product sample finds no row. -/
def rstSampleErr : ReadStore :=
  { randomProduct := .error .notFound
    orderCount := fun _ => .ok 0
    uniqueUserCount := fun _ => .ok 0
    productReviews := fun _ => .ok [] }

def msgConnReset : String := "connection reset"

/-- A read-handler oracle in which the distinct-user count fails. -/
def rstUcErr : ReadStore :=
  { randomProduct := .ok prod1
    orderCount := fun _ => .ok 4
    uniqueUserCount := fun _ => .error (.backend msgConnReset)
    productReviews := fun _ => .ok [] }

/-- Witness for C5: evaluated on three concrete read-handler oracles: all
queries succeed, the sample fails, and a dependent query fails. -/
theorem read_handler_dependent_queries_witness :
    (rstOk.randomProduct = .ok prod1 ∧
      ∀ ev ∈ (handleDBRead rstOk).2, ev.isDependentQuery = true →
        ev.queryProductId = some prod1.id) ∧
    (rstSampleErr.randomProduct = .error .notFound ∧
      (handleDBRead rstSampleErr).1 = .serverError ∧
      ∀ ev ∈ (handleDBRead rstSampleErr).2, ev.isDependentQuery = false) ∧
    (rstUcErr.uniqueUserCount prod1.id = .error (.backend msgConnReset) ∧
      (handleDBRead rstUcErr).1 = .serverError ∧
      ∃ m, ReadEvent.logError m ∈ (handleDBRead rstUcErr).2) :=
  ⟨⟨rfl, (read_handler_dependent_queries rstOk).1 prod1 rfl⟩,
    ⟨rfl, (read_handler_dependent_queries rstSampleErr).2.1 .notFound rfl⟩,
    ⟨rfl, (read_handler_dependent_queries rstUcErr).2.2 prod1 (.backend msgConnReset)
      rfl (Or.inr (Or.inl rfl))⟩⟩

/-- C8: within every single write-workload invocation the Order insert is
attempted before the Review insert: the insert events of the trace are
exactly the order insert followed by the review insert. -/
theorem write_order_insert_before_review_insert (st : WriteStore) (w : WriteGen) :
    (handleDBWrite st w).events.filter WriteEvent.isInsert =
      [WriteEvent.insertOrder (handleDBWrite st w).order,
        WriteEvent.insertReview (handleDBWrite st w).review] := by
  rcases st with ⟨rp, ru, io, ir⟩
  rcases rp with erp | p <;> rcases ru with eru | u <;>
    simp only [handleDBWrite] <;>
    (repeat' split) <;>
    simp [WriteEvent.isInsert]

def msgFKViolation : String := "violates foreign key constraint"

/-- A write-handler oracle in which both samples return `NotFound` (empty
tables / saturated pool) and both inserts fail their constraints. -/
def wstNotFound : WriteStore :=
  { randomProduct := .error .notFound
    randomUser := .error .notFound
    insertOrder := fun _ => some msgFKViolation
    insertReview := fun _ => some msgFKViolation }

/-- Zero-seed write-handler randomness. -/
def w0 : WriteGen := { quantitySeed := 0, ratingSeed := 0, content := "", now := 0 }

/-- C1: evaluation of the write handler at the failing input: both samples
return `NotFound`, yet the handler still attempts the Order insert and the
Review insert, built from the zero-value product and user (ids 0). -/
theorem write_notfound_still_attempts_inserts :
    (handleDBWrite wstNotFound w0).events =
      [.sampleProduct, .logError msgErrSelectProduct,
        .sampleUser, .logError msgErrSelectUser,
        .insertOrder { userId := 0, productId := 0, quantity := 1, totalPrice := 0, date := 0 },
        .logError msgErrInsertOrder,
        .insertReview { productId := 0, userId := 0, rating := 1, content := "" },
        .logError msgErrInsertReview] := by
  norm_num [handleDBWrite, wstNotFound, w0, zeroProduct, zeroUser, fakeNumber]

def msgOrderInsertFailed : String := "pq: could not insert order"

/-- A write-handler oracle in which both samples succeed but the Order
insert fails. -/
def wstOrderErr : WriteStore :=
  { randomProduct := .ok prod1
    randomUser := .ok user1
    insertOrder := fun _ => some msgOrderInsertFailed
    insertReview := fun _ => none }

/-- Counterexample to C6: in this write-workload invocation the Order
insert returns an error, yet the caller does not receive a server error —
the handler renders the confirmation view. -/
theorem write_store_error_not_surfaced :
    wstOrderErr.insertOrder (handleDBWrite wstOrderErr w1).order =
      some msgOrderInsertFailed ∧
    (handleDBWrite wstOrderErr w1).response ≠ WriteResponse.serverError := by
  refine ⟨rfl, ?_⟩
  simp [handleDBWrite, wstOrderErr]

/-- C6 (amended): every read-handler store error is logged and surfaced to
the caller as a server error; write-handler store errors are logged but not
surfaced — the write handler always renders the confirmation view. -/
theorem handler_errors_logged (st : ReadStore) (wst : WriteStore) (w : WriteGen) :
    (∀ er, st.randomProduct = .error er →
      (handleDBRead st).1 = .serverError ∧
        ReadEvent.logError msgErrSelectProduct ∈ (handleDBRead st).2) ∧
    (∀ p er, st.randomProduct = .ok p →
      (st.orderCount p.id = .error er ∨ st.uniqueUserCount p.id = .error er ∨
        st.productReviews p.id = .error er) →
      (handleDBRead st).1 = .serverError ∧
        ∃ m, ReadEvent.logError m ∈ (handleDBRead st).2) ∧
    ((∃ d, (handleDBWrite wst w).response = .rendered d) ∧
      (∀ er, wst.randomProduct = .error er →
        WriteEvent.logError msgErrSelectProduct ∈ (handleDBWrite wst w).events) ∧
      (∀ er, wst.randomUser = .error er →
        WriteEvent.logError msgErrSelectUser ∈ (handleDBWrite wst w).events) ∧
      (∀ m, wst.insertOrder (handleDBWrite wst w).order = some m →
        WriteEvent.logError msgErrInsertOrder ∈ (handleDBWrite wst w).events) ∧
      (∀ m, wst.insertReview (handleDBWrite wst w).review = some m →
        WriteEvent.logError msgErrInsertReview ∈ (handleDBWrite wst w).events)) := by
  rcases st with ⟨rp, oc, uc, pr⟩
  rcases wst with ⟨wrp, wru, io, ir⟩
  refine ⟨?_, ?_, ?_, ?_, ?_, ?_, ?_⟩
  · rintro er rfl
    rw [handleDBRead_sample_error oc uc pr er]
    exact ⟨rfl, by simp⟩
  · rintro p er rfl hdisj
    rcases h1 : oc p.id with er1 | n1
    · rw [handleDBRead_oc_error p oc uc pr er1 h1]
      exact ⟨rfl, msgErrCountOrders, by simp⟩
    · rcases h2 : uc p.id with er2 | n2
      · rw [handleDBRead_uc_error p oc uc pr n1 er2 h1 h2]
        exact ⟨rfl, msgErrCountUniqueUsers, by simp⟩
      · rcases h3 : pr p.id with er3 | rs
        · rw [handleDBRead_pr_error p oc uc pr n1 n2 er3 h1 h2 h3]
          exact ⟨rfl, msgErrFetchReviews, by simp⟩
        · exfalso
          rcases hdisj with h | h | h <;> simp_all
  · rcases wrp with erp | p <;> rcases wru with eru | u <;>
      simp only [handleDBWrite] <;> exact ⟨_, rfl⟩
  · rintro er rfl
    rcases wru with eru | u <;> simp [handleDBWrite]
  · rintro er rfl
    rcases wrp with erp | p <;> simp [handleDBWrite]
  · intro m hm
    simp only [handleDBWrite] at hm ⊢
    simp [hm]
  · intro m hm
    simp only [handleDBWrite] at hm ⊢
    simp [hm]

/-- Witness for C6 (amended): evaluated on a concrete failed read sample and
on a concrete write invocation whose Order insert fails. -/
theorem handler_errors_logged_witness :
    ((handleDBRead rstSampleErr).1 = .serverError ∧
      ReadEvent.logError msgErrSelectProduct ∈ (handleDBRead rstSampleErr).2) ∧
    (∃ d, (handleDBWrite wstOrderErr w1).response = .rendered d) ∧
    WriteEvent.logError msgErrInsertOrder ∈ (handleDBWrite wstOrderErr w1).events :=
  ⟨(handler_errors_logged rstSampleErr wstOrderErr w1).1 .notFound rfl,
    (handler_errors_logged rstSampleErr wstOrderErr w1).2.2.1,
    (handler_errors_logged rstSampleErr wstOrderErr w1).2.2.2.2.2.1
      msgOrderInsertFailed rfl⟩

/-- A seeding run in which the Users bulk insert errors and the later
inserts succeed. -/
def e7 : SeedErrors :=
  { usersErr := some msgErrInsertUsers
    productsErr := none
    ordersErr := none
    reviewsErr := none }

/-- Counterexample to C7: in this seeding run the Users bulk insert errors,
yet the run does not abort — it still submits the Products, Orders and
Reviews bulk inserts and returns `nil`. -/
theorem seed_user_insert_error_still_continues :
    (seedDatabase g0 e7).ret = none ∧
    SeedEvent.logError msgErrInsertUsers ∈ (seedDatabase g0 e7).events ∧
    SeedEvent.insertProducts (seedDatabase g0 e7).products ∈ (seedDatabase g0 e7).events ∧
    SeedEvent.insertOrders (seedDatabase g0 e7).orders ∈ (seedDatabase g0 e7).events ∧
    SeedEvent.insertReviews (seedDatabase g0 e7).reviews ∈ (seedDatabase g0 e7).events := by
  refine ⟨rfl, ?_, ?_, ?_, ?_⟩ <;> simp [seedDatabase, logIfErr, e7]

/-- C7 (amended): if the Users bulk insert errors, the error is logged and
seeding continues — the Products, Orders and Reviews phases still generate
and submit their bulk inserts, and the function still returns `nil`. -/
theorem seed_user_insert_error_logged_and_continues (g : SeedGen) (e : SeedErrors)
    (m : String) (h : e.usersErr = some m) :
    (seedDatabase g e).ret = none ∧
    SeedEvent.logError m ∈ (seedDatabase g e).events ∧
    SeedEvent.insertProducts (seedDatabase g e).products ∈ (seedDatabase g e).events ∧
    SeedEvent.insertOrders (seedDatabase g e).orders ∈ (seedDatabase g e).events ∧
    SeedEvent.insertReviews (seedDatabase g e).reviews ∈ (seedDatabase g e).events := by
  refine ⟨rfl, ?_, ?_, ?_, ?_⟩ <;> simp [seedDatabase, logIfErr, h]

/-- Witness for C7 (amended): evaluated on a concrete run whose Users
insert fails. -/
theorem seed_user_insert_error_logged_and_continues_witness :
    e7.usersErr = some msgErrInsertUsers ∧
    (seedDatabase g0 e7).ret = none ∧
    SeedEvent.logError msgErrInsertUsers ∈ (seedDatabase g0 e7).events :=
  ⟨rfl, (seed_user_insert_error_logged_and_continues g0 e7 msgErrInsertUsers rfl).1,
    (seed_user_insert_error_logged_and_continues g0 e7 msgErrInsertUsers rfl).2.1⟩

/-- Counterexample to C9: rating 0 satisfies the reviews table's CHECK
constraint even though 0 is outside the closed range [1,100]. -/
theorem reviews_rating_check_allows_zero :
    reviewsRatingCheck 0 = true ∧ ¬((1 : ℤ) ≤ 0 ∧ (0 : ℤ) ≤ 100) := by decide

/-- C9 (amended): the reviews table's CHECK constraint admits exactly the
integers in [0,100] — one wider at the bottom than the `[1,100]` range the
generators enforce — so every generated rating (uniform in [1,100]) does
satisfy it. -/
theorem reviews_rating_check_range (r : Int) (s : Nat) :
    (reviewsRatingCheck r = true ↔ 0 ≤ r ∧ r ≤ 100) ∧
    1 ≤ fakeNumber 1 100 s ∧ fakeNumber 1 100 s ≤ 100 ∧
    reviewsRatingCheck (fakeNumber 1 100 s) = true := by
  refine ⟨?_, ?_, ?_, ?_⟩
  · simp [reviewsRatingCheck]
  · simp [fakeNumber]
  · have h := Nat.mod_lt s (show 0 < 100 by norm_num)
    simp only [fakeNumber]
    omega
  · have h := Nat.mod_lt s (show 0 < 100 by norm_num)
    simp only [reviewsRatingCheck, fakeNumber, Bool.and_eq_true, decide_eq_true_eq]
    constructor <;> [positivity; skip]
    push_cast
    omega
